import Mathlib

/-!
Shallow embedding of `main.py` from the letterboxd-kinopoisk repository.

Python values that flow through the matching pipeline are modelled by
`PyVal` (None, int, str); Python `==` on those values is `pyEq`,
truthiness is `pyTruthy`.  Functions that can raise an uncaught Python
exception are modelled in `Except String`; the `.error` payload names
the exception class.
-/

set_option autoImplicit false

/-- Python values appearing in the pipeline: `None`, `int`, `str`. -/
inductive PyVal where
  | none : PyVal
  | int (n : Int) : PyVal
  | str (s : String) : PyVal
deriving DecidableEq, Repr, Inhabited

/-- Python `==` on `PyVal`: equal ints, equal strings, `None == None`;
every mixed-type comparison is `False`. -/
def pyEq : PyVal → PyVal → Bool
  | PyVal.none, PyVal.none => true
  | PyVal.int m, PyVal.int n => m == n
  | PyVal.str s, PyVal.str t => s == t
  | _, _ => false

/-- Python truthiness of a `PyVal`: `None`, `0` and `""` are falsy. -/
def pyTruthy : PyVal → Bool
  | PyVal.none => false
  | PyVal.int n => n != 0
  | PyVal.str s => s != ""

/-- A Python `Optional[int]` argument as a `PyVal`. -/
def optIntToPy : Option Int → PyVal
  | Option.none => PyVal.none
  | some n => PyVal.int n

/-- Truthiness of a Python `Optional[int]`: `None` and `0` are falsy
(`if not year:` takes the falsy branch for both). -/
def optIntFalsy : Option Int → Bool
  | Option.none => true
  | some n => n == 0

/-- The `TitleFinder` class: wraps the defaultdict built by
`build_title_finder`.  `_dict.get(title)` is modelled by applying the
field to a key; catalog entries are `(tconst, startYear)` pairs. -/
structure TitleFinder where
  _dict : PyVal → Option (List (PyVal × PyVal))

/-- `TitleFinder.find_id(self, title, year=None)` from `main.py`:

```
films_with_title = self._dict.get(title)
if not films_with_title:
    return None
if len(films_with_title) == 1:
    return films_with_title[0][0]
if not year:
    return None
films_with_correct_year = [f for f in films_with_title if f[1] == year]
if len(films_with_title) == 1:
    return films_with_correct_year[0][0]
if not films_with_correct_year:
    return None
return None
```

List indexing is modelled fallibly: `xs[0]` on an empty list is an
`IndexError`. -/
def TitleFinder.find_id (self : TitleFinder) (title : String)
    (year : Option Int := Option.none) : Except String PyVal :=
  match self._dict (PyVal.str title) with
  | Option.none => Except.ok PyVal.none
  | some films_with_title =>
    if films_with_title.length = 0 then Except.ok PyVal.none
    else if films_with_title.length = 1 then
      match films_with_title.head? with
      | some f => Except.ok f.1
      | Option.none => Except.error "IndexError"
    else if optIntFalsy year then Except.ok PyVal.none
    else
      let films_with_correct_year :=
        films_with_title.filter (fun f => pyEq f.2 (optIntToPy year))
      if films_with_title.length = 1 then
        match films_with_correct_year.head? with
        | some f => Except.ok f.1
        | Option.none => Except.error "IndexError"
      else if films_with_correct_year.length = 0 then Except.ok PyVal.none
      else Except.ok PyVal.none

/-- The `Film` dataclass.  `year` and `rating` are `int` or `None`;
`imdb_id` defaults to `None`. -/
structure Film where
  title : String
  year : Option Int
  rating : Option Int
  date : String
  imdb_id : PyVal := PyVal.none
deriving DecidableEq, Repr

/-- `add_imdb_id(imdb, film)`: looks the film up and sets `imdb_id`
only when the result is truthy. -/
def add_imdb_id (imdb : TitleFinder) (film : Film) : Except String Film :=
  (imdb.find_id film.title film.year).map
    (fun v => if pyTruthy v then { film with imdb_id := v } else film)

/-- Python dict lookup `d.get(k)` on the insertion-ordered association
list that models the defaultdict. -/
def dictGet (d : List (PyVal × List (PyVal × PyVal))) (k : PyVal) :
    Option (List (PyVal × PyVal)) :=
  match d with
  | [] => Option.none
  | (k0, l) :: rest => if k0 = k then some l else dictGet rest k

/-- `defaultdict(list)` update `d[k].append(v)`: extends the list stored
at `k`, creating an empty one first when the key is new; key insertion
order is preserved. -/
def dAppend (d : List (PyVal × List (PyVal × PyVal))) (k : PyVal)
    (v : PyVal × PyVal) : List (PyVal × List (PyVal × PyVal)) :=
  match d with
  | [] => [(k, [v])]
  | (k0, l) :: rest =>
    if k0 = k then (k0, l ++ [v]) :: rest else (k0, l) :: dAppend rest k v

/-- `csv.DictReader` field access `row[key]`, given the header's
`fieldnames`: a key outside the header is a `KeyError`; a row shorter
than the header yields the default `restval`, which is Python `None`. -/
def dictRowGet (fieldnames row : List String) (key : String) :
    Except String PyVal :=
  match fieldnames.indexOf? key with
  | Option.none => Except.error "KeyError"
  | some i =>
    match row[i]? with
    | some v => Except.ok (PyVal.str v)
    | Option.none => Except.ok PyVal.none

/-- One iteration of the loop in `build_title_finder`:
`finder_data[row["originalTitle"]].append((row["tconst"], row["startYear"]))`,
with the field accesses performed left to right and a `KeyError`
propagating out of the loop. -/
def build_step (fieldnames : List String)
    (acc : List (PyVal × List (PyVal × PyVal))) (row : List String) :
    Except String (List (PyVal × List (PyVal × PyVal))) :=
  match dictRowGet fieldnames row "originalTitle" with
  | Except.error e => Except.error e
  | Except.ok t =>
    match dictRowGet fieldnames row "tconst" with
    | Except.error e => Except.error e
    | Except.ok c =>
      match dictRowGet fieldnames row "startYear" with
      | Except.error e => Except.error e
      | Except.ok y => Except.ok (dAppend acc t (c, y))

/-- The `for row in csvreader:` loop of `build_title_finder`. -/
def build_loop (fieldnames : List String)
    (acc : List (PyVal × List (PyVal × PyVal))) :
    List (List String) → Except String (List (PyVal × List (PyVal × PyVal)))
  | [] => Except.ok acc
  | row :: rest =>
    match build_step fieldnames acc row with
    | Except.error e => Except.error e
    | Except.ok acc' => build_loop fieldnames acc' rest

/-- `build_title_finder()`: folds the TSV data rows into the title
dictionary.  `csv.DictReader` skips rows coming from blank lines, hence
the filter; `fieldnames` is the header row of the file. -/
def build_title_finder (fieldnames : List String) (rows : List (List String)) :
    Except String (List (PyVal × List (PyVal × PyVal))) :=
  build_loop fieldnames [] (rows.filter (fun r => !r.isEmpty))

/-- Values that `dictRowGet` can produce: a string cell or the `None`
restval, never an `int`. -/
def isStrOrNone : PyVal → Bool
  | PyVal.int _ => false
  | _ => true

/-- Every entry year stored in the dictionary is a string or `None`. -/
def dictYearsOk (d : List (PyVal × List (PyVal × PyVal))) : Prop :=
  ∀ k l, dictGet d k = some l → ∀ e ∈ l, isStrOrNone e.2 = true

/-- `is_imdb_download_needed()`: `mtime` is `os.path.getmtime` of the
cache file in seconds (`Option.none` when the file does not exist and the
call raises `OSError`), `now` is the current time in seconds.
`delta.days` of a Python `timedelta` is the floor of the difference in
whole days; the function returns `False` when `delta.days <= 1`. -/
def is_imdb_download_needed (mtime : Option Int) (now : Int) : Bool :=
  match mtime with
  | Option.none => true
  | some ts =>
    let days := Int.fdiv (now - ts) 86400
    if days ≤ 1 then false else true

/-- Outcome of the `__main__` argument check. -/
inductive MainStart where
  | usageExit : MainStart
  | proceed (kinopoisk_filename : String) : MainStart
deriving DecidableEq, Repr

/-- The `__main__` prologue: `if not sys.argv[1]:` logs an error and
exits with status 1; otherwise the argument becomes the file to parse.
`sys.argv[1]` on an argument list without index 1 is an `IndexError`. -/
def main_prologue (argv : List String) : Except String MainStart :=
  match argv.get? 1 with
  | Option.none => Except.error "IndexError"
  | some a =>
    if a = "" then Except.ok MainStart.usageExit
    else Except.ok (MainStart.proceed a)

/-- A character that forces `csv.writer` (default QUOTE_MINIMAL dialect)
to quote a field: the delimiter, the quote char, or a character of the
default line terminator. -/
def isCsvSpecial (c : Char) : Bool :=
  c == ',' || c == '"' || c == '\r' || c == '\n'

/-- Whether `csv.writer` must quote the field text `s`. -/
def needsQuoting (s : String) : Bool :=
  s.data.any isCsvSpecial

/-- Quote-doubling performed inside a quoted CSV field. -/
def escapeQuotes (s : String) : String :=
  String.mk (s.data.foldr
    (fun c acc => if c == '"' then '"' :: '"' :: acc else c :: acc) [])

/-- One serialized CSV field under QUOTE_MINIMAL. -/
def csvField (s : String) : String :=
  if needsQuoting s then "\"" ++ escapeQuotes s ++ "\"" else s

/-- `csv.writer.writerow` output: comma-separated fields followed by the
default `\r\n` line terminator. -/
def writerow : List String → String
  | [] => "\r\n"
  | [f] => csvField f ++ "\r\n"
  | f :: rest => csvField f ++ "," ++ writerow rest

/-- A `PyVal` cell as `csv.writer` serializes it: Python `None` becomes
an empty field, other values are written with `str()`. -/
def pyFieldStr : PyVal → String
  | PyVal.none => ""
  | PyVal.int n => toString n
  | PyVal.str s => s

/-- An `int`-or-`None` cell as `csv.writer` serializes it. -/
def optIntFieldStr : Option Int → String
  | Option.none => ""
  | some n => toString n

/-- The data row `export_to_csv` writes for one film:
`(film.imdb_id, film.title, film.year, film.date, film.rating)`. -/
def filmRow (film : Film) : String :=
  writerow [pyFieldStr film.imdb_id, film.title, optIntFieldStr film.year,
    film.date, optIntFieldStr film.rating]

/-- `export_to_csv(films_with_ids)`: the full text written to
`letterbox.csv` - the fixed header row, then one data row per film. -/
def export_to_csv (films_with_ids : List Film) : String :=
  films_with_ids.foldl (fun acc film => acc ++ filmRow film)
    (writerow ["imdbID", "Title", "Year", "WatchedDate", "Rating10"])

/-- Numeric value of a list of ASCII digits. -/
def digitsVal (cs : List Char) : Nat :=
  cs.foldl (fun acc c => 10 * acc + (c.toNat - 48)) 0

/-- `int(s)` on a Python string: optional surrounding whitespace, an
optional sign, then one or more ASCII digits; anything else raises
`ValueError`, modelled as `Option.none` (digit-grouping underscores and
non-ASCII digits are not modelled). -/
def pyInt (s : String) : Option Int :=
  let trimmed :=
    ((s.data.dropWhile Char.isWhitespace).reverse.dropWhile
      Char.isWhitespace).reverse
  match trimmed with
  | '+' :: rest =>
    if rest ≠ [] ∧ rest.all Char.isDigit then some (Int.ofNat (digitsVal rest))
    else Option.none
  | '-' :: rest =>
    if rest ≠ [] ∧ rest.all Char.isDigit then some (-Int.ofNat (digitsVal rest))
    else Option.none
  | rest =>
    if rest ≠ [] ∧ rest.all Char.isDigit then some (Int.ofNat (digitsVal rest))
    else Option.none

/-- The result of a successful `datetime.strptime`. -/
structure PyDateTime where
  year : Nat
  month : Nat
  day : Nat
  hour : Nat
  minute : Nat
  second : Nat
deriving DecidableEq, Repr

/-- A one-or-two digit numeric `strptime` field, matched the way
CPython's compiled regex alternation does: two digits are consumed when
present and in range `lo..hi`, otherwise a single digit in range. -/
def parseField2 (lo hi : Nat) : List Char → Option (Nat × List Char)
  | c1 :: c2 :: rest =>
    if c1.isDigit ∧ c2.isDigit then
      let v := (c1.toNat - 48) * 10 + (c2.toNat - 48)
      if lo ≤ v ∧ v ≤ hi then some (v, rest)
      else
        let v1 := c1.toNat - 48
        if lo ≤ v1 ∧ v1 ≤ hi then some (v1, c2 :: rest) else Option.none
    else if c1.isDigit then
      let v1 := c1.toNat - 48
      if lo ≤ v1 ∧ v1 ≤ hi then some (v1, c2 :: rest) else Option.none
    else Option.none
  | [c1] =>
    if c1.isDigit then
      let v1 := c1.toNat - 48
      if lo ≤ v1 ∧ v1 ≤ hi then some (v1, []) else Option.none
    else Option.none
  | [] => Option.none

/-- A literal character of the `strptime` format string. -/
def parseLit (c : Char) : List Char → Option (List Char)
  | c1 :: rest => if c1 = c then some rest else Option.none
  | [] => Option.none

/-- The four-digit `%Y` field of `strptime`. -/
def parseYear4 : List Char → Option (Nat × List Char)
  | c1 :: c2 :: c3 :: c4 :: rest =>
    if c1.isDigit ∧ c2.isDigit ∧ c3.isDigit ∧ c4.isDigit then
      some ((((c1.toNat - 48) * 10 + (c2.toNat - 48)) * 10
        + (c3.toNat - 48)) * 10 + (c4.toNat - 48), rest)
    else Option.none
  | _ => Option.none

/-- Gregorian leap-year rule used by `datetime`. -/
def isLeapYear (y : Nat) : Bool :=
  (y % 4 == 0 && y % 100 != 0) || y % 400 == 0

/-- Length of a month, as `datetime` validates the day against it. -/
def daysInMonth (y m : Nat) : Nat :=
  if m = 2 then (if isLeapYear y then 29 else 28)
  else if m = 4 ∨ m = 6 ∨ m = 9 ∨ m = 11 then 30
  else 31

/-- `datetime.strptime(s, "%H:%M:%S %d.%m.%Y")`: the whole string must
match the format (the `%S` regex admits 0-61, the `datetime` constructor
then requires seconds below 60, a positive year and a day that exists in
the month).  Returns `Option.none` where Python raises `ValueError`. -/
def strptime_hms_dmY (s : String) : Option PyDateTime := do
  let hr ← parseField2 0 23 s.data
  let r2 ← parseLit ':' hr.2
  let mr ← parseField2 0 59 r2
  let r4 ← parseLit ':' mr.2
  let sr ← parseField2 0 61 r4
  let r6 ← parseLit ' ' sr.2
  let dr ← parseField2 1 31 r6
  let r8 ← parseLit '.' dr.2
  let or ← parseField2 1 12 r8
  let r10 ← parseLit '.' or.2
  let yr ← parseYear4 r10
  if yr.2 = [] ∧ 1 ≤ yr.1 ∧ dr.1 ≤ daysInMonth yr.1 or.1 ∧ sr.1 ≤ 59 then
    pure ⟨yr.1, or.1, dr.1, hr.1, mr.1, sr.1⟩
  else Option.none

/-- Zero-padded two-digit `strftime` field. -/
def pad2 (n : Nat) : String :=
  if n < 10 then "0" ++ toString n else toString n

/-- Zero-padded four-digit `strftime` `%Y` field. -/
def pad4 (n : Nat) : String :=
  if n < 10 then "000" ++ toString n
  else if n < 100 then "00" ++ toString n
  else if n < 1000 then "0" ++ toString n
  else toString n

/-- `datetime.strftime(date, "%Y-%m-%d")`. -/
def strftime_Ymd (d : PyDateTime) : String :=
  pad4 d.year ++ "-" ++ pad2 d.month ++ "-" ++ pad2 d.day

/-- `parse_kinopoisk_row(row)` over the list of `<td>` cell texts.

Cell accesses are by fixed index: `tds[1]` title, `tds[2]` year,
`tds[7]` rating, `tds[-1]` timestamp.  All exceptions are caught
(`ValueError` by name, everything else by the trailing
`except Exception`) and both handlers return `None`, so the model is
total and a rejected row is `Option.none`.  An `IndexError` from a
missing cell escapes the inner `try` blocks (they catch only
`TypeError` and `ValueError`) into the generic handler. -/
def parse_kinopoisk_row (tds : List String) : Option Film :=
  match tds[1]? with
  | Option.none => Option.none
  | some title =>
    if title = "" then Option.none
    else
      match tds[2]? with
      | Option.none => Option.none
      | some ys =>
        let year := pyInt ys
        match tds[7]? with
        | Option.none => Option.none
        | some rs =>
          let rating := pyInt rs
          match tds.getLast? with
          | Option.none => Option.none
          | some ds =>
            match strptime_hms_dmY ds with
            | Option.none => Option.none
            | some date =>
              some { title := title, year := year, rating := rating,
                     date := strftime_Ymd date }

/-- The row-parsing core of `load_kinopoisk_data`: parse every data row
and keep the successfully parsed films in order (`[f for f in films if f]`;
a `Film` instance is always truthy). -/
def load_kinopoisk_rows (rows : List (List String)) : List Film :=
  (rows.map parse_kinopoisk_row).filterMap id

/-- A concrete film record with no catalog match. -/
def sampleFilm : Film :=
  { title := "Alice", year := Option.none, rating := some 8,
    date := "2003-02-01" }

/-- The film parsed from the concrete row with a non-numeric year
cell. -/
def badYearFilm : Film :=
  { title := "Alice", year := Option.none, rating := pyInt "8",
    date := strftime_Ymd ⟨2003, 2, 1, 12, 30, 45⟩ }

/-- A concrete catalog with one ambiguous title, the spec's `Alice`
scenario with integer years. -/
def aliceFinder : TitleFinder :=
  ⟨fun k =>
    if k = PyVal.str "Alice" then
      some [(PyVal.str "tt1", PyVal.int 2001), (PyVal.str "tt2", PyVal.int 2015)]
    else Option.none⟩

/-- A concrete catalog with one unique title, the spec's `Inception`
scenario (the year is stored as a string, as `build_title_finder` does). -/
def inceptionFinder : TitleFinder :=
  ⟨fun k =>
    if k = PyVal.str "Inception" then
      some [(PyVal.str "tt1375666", PyVal.str "2010")]
    else Option.none⟩

/-- C3: a title that maps to exactly one catalog entry resolves to that
entry's identifier for every year argument, matching or not, including
no year at all. -/
theorem find_id_unique_title (tf : TitleFinder) (title : String)
    (year : Option Int) (e : PyVal × PyVal)
    (h : tf._dict (PyVal.str title) = some [e]) :
    tf.find_id title year = Except.ok e.1 := by
  simp [TitleFinder.find_id, h]

/-- Witness for `find_id_unique_title`: the `Inception` catalog with a
non-matching year argument. -/
theorem find_id_unique_title_witness :
    inceptionFinder._dict (PyVal.str "Inception")
      = some [(PyVal.str "tt1375666", PyVal.str "2010")] ∧
    inceptionFinder.find_id "Inception" (some 1999)
      = Except.ok (PyVal.str "tt1375666") :=
  ⟨rfl, find_id_unique_title inceptionFinder "Inception" (some 1999)
    (PyVal.str "tt1375666", PyVal.str "2010") rfl⟩

/-- C4: a title that maps to two or more catalog entries resolves to
absent when no year argument is given. -/
theorem find_id_ambiguous_no_year (tf : TitleFinder) (title : String)
    (films : List (PyVal × PyVal))
    (h : tf._dict (PyVal.str title) = some films)
    (h2 : 2 ≤ films.length) :
    tf.find_id title Option.none = Except.ok PyVal.none := by
  have h0 : films.length ≠ 0 := by omega
  have h1 : films.length ≠ 1 := by omega
  simp [TitleFinder.find_id, h, h0, h1, optIntFalsy]

/-- Witness for `find_id_ambiguous_no_year`: the `Alice` catalog. -/
theorem find_id_ambiguous_no_year_witness :
    aliceFinder._dict (PyVal.str "Alice")
      = some [(PyVal.str "tt1", PyVal.int 2001), (PyVal.str "tt2", PyVal.int 2015)] ∧
    aliceFinder.find_id "Alice" Option.none = Except.ok PyVal.none :=
  ⟨rfl, find_id_ambiguous_no_year aliceFinder "Alice"
    [(PyVal.str "tt1", PyVal.int 2001), (PyVal.str "tt2", PyVal.int 2015)]
    rfl (by decide)⟩

/-- C5: a title absent from the catalog resolves to absent for every
year argument, returning normally rather than raising. -/
theorem find_id_missing_title (tf : TitleFinder) (title : String)
    (year : Option Int)
    (h : tf._dict (PyVal.str title) = Option.none) :
    tf.find_id title year = Except.ok PyVal.none := by
  simp [TitleFinder.find_id, h]

/-- Witness for `find_id_missing_title`: a title outside the `Alice`
catalog. -/
theorem find_id_missing_title_witness :
    aliceFinder._dict (PyVal.str "Solaris") = Option.none ∧
    aliceFinder.find_id "Solaris" (some 1972) = Except.ok PyVal.none :=
  ⟨rfl, find_id_missing_title aliceFinder "Solaris" (some 1972) rfl⟩

/-- C1 evaluation at the failing input: in the `Alice` catalog the title
maps to two entries and exactly one has year 2015, yet
`find_id("Alice", 2015)` returns `None`, because the year-filtered
branch re-tests the length of the unfiltered candidate list. -/
theorem find_id_year_disambiguation_fails :
    (aliceFinder._dict (PyVal.str "Alice")).map
        (List.filter (fun f => pyEq f.2 (optIntToPy (some 2015))))
      = some [(PyVal.str "tt2", PyVal.int 2015)] ∧
    aliceFinder.find_id "Alice" (some 2015) = Except.ok PyVal.none :=
  ⟨rfl, rfl⟩

/-- C8 evaluation at the failing input: with only the program name in
`sys.argv`, the `__main__` prologue raises `IndexError` at
`sys.argv[1]` instead of reaching the guarded usage-error exit. -/
theorem main_prologue_no_argument_raises :
    main_prologue ["main.py"] = Except.error "IndexError" ∧
    main_prologue ["main.py"] ≠ Except.ok MainStart.usageExit := by
  constructor
  · rfl
  · intro h
    simp [main_prologue] at h

/-- C6 counterexample: a cache file 129600 seconds (1.5 days) old is
more than 1 day old, yet `is_imdb_download_needed` keeps it, because the
code re-downloads only when `delta.days <= 1` fails, i.e. at two or more
whole days of age. -/
theorem is_imdb_download_needed_claim_false :
    86400 < (129600 : Int) - 0 ∧
    is_imdb_download_needed (some 0) 129600 = false :=
  ⟨by norm_num, rfl⟩

/-- C6 amended: the catalog file is re-downloaded iff the cache file
does not exist or is at least two whole days old (its age in seconds is
at least 172800, making `delta.days` exceed 1). -/
theorem is_imdb_download_needed_spec (mtime : Option Int) (now : Int) :
    is_imdb_download_needed mtime now = true ↔
      (mtime = Option.none ∨ ∃ ts, mtime = some ts ∧ 172800 ≤ now - ts) := by
  cases mtime with
  | none => simp [is_imdb_download_needed]
  | some ts =>
    have key : ((now - ts).fdiv 86400 ≤ 1) ↔ now - ts < 172800 := by
      rw [Int.fdiv_eq_ediv _ (by norm_num : (0:Int) ≤ 86400)]
      omega
    constructor
    · intro h
      refine Or.inr ⟨ts, rfl, ?_⟩
      by_contra hlt
      have hc : (now - ts).fdiv 86400 ≤ 1 := key.2 (by omega)
      simp [is_imdb_download_needed, hc] at h
    · rintro (h | ⟨ts2, hts, hge⟩)
      · exact Option.noConfusion h
      · injection hts with h2
        subst h2
        have hc : ¬ (now - ts).fdiv 86400 ≤ 1 := by rw [key]; omega
        simp [is_imdb_download_needed, hc]

/-- Witness for `is_imdb_download_needed_spec`: a two-day-old cache
triggers the download. -/
theorem is_imdb_download_needed_spec_witness :
    is_imdb_download_needed (some 0) 172800 = true :=
  (is_imdb_download_needed_spec (some 0) 172800).2
    (Or.inr ⟨0, rfl, by norm_num⟩)

/-- A field read out of a `csv.DictReader` row is a string cell or the
`None` restval, never an `int`. -/
theorem dictRowGet_isStrOrNone {fieldnames row : List String} {key : String}
    {v : PyVal} (h : dictRowGet fieldnames row key = Except.ok v) :
    isStrOrNone v = true := by
  cases hidx : fieldnames.indexOf? key with
  | none => simp [dictRowGet, hidx] at h
  | some i =>
    cases hg : row[i]? with
    | none =>
      simp only [dictRowGet, hidx, hg, Except.ok.injEq] at h
      subst h
      rfl
    | some s =>
      simp only [dictRowGet, hidx, hg, Except.ok.injEq] at h
      subst h
      rfl

/-- Lookup after a `defaultdict` append: the appended key's list grows
by the new entry, every other key is untouched. -/
theorem dictGet_dAppend (d : List (PyVal × List (PyVal × PyVal))) (k : PyVal)
    (v : PyVal × PyVal) (k' : PyVal) :
    dictGet (dAppend d k v) k' =
      if k = k' then some (((dictGet d k').getD []) ++ [v])
      else dictGet d k' := by
  induction d with
  | nil => by_cases hk : k = k' <;> simp [dAppend, dictGet, hk]
  | cons hd rest ih =>
    obtain ⟨k0, l⟩ := hd
    by_cases h0 : k0 = k
    · subst h0
      by_cases h1 : k0 = k' <;> simp [dAppend, dictGet, h1]
    · by_cases h1 : k0 = k'
      · subst h1
        have hne : ¬ k = k0 := fun h => h0 h.symm
        simp [dAppend, dictGet, h0, hne]
      · simp [dAppend, dictGet, h0, h1, ih]

/-- Appending an entry whose year is a string or `None` preserves the
dictionary year invariant. -/
theorem dictYearsOk_dAppend {d : List (PyVal × List (PyVal × PyVal))}
    {k : PyVal} {v : PyVal × PyVal}
    (hd : dictYearsOk d) (hv : isStrOrNone v.2 = true) :
    dictYearsOk (dAppend d k v) := by
  intro k' l' hget e he
  rw [dictGet_dAppend] at hget
  split at hget
  · injection hget with hl
    subst hl
    rcases List.mem_append.1 he with h1 | h1
    · cases hg : dictGet d k' with
      | none => rw [hg] at h1; simp at h1
      | some l0 => rw [hg] at h1; exact hd k' l0 hg e h1
    · simp at h1; subst h1; exact hv
  · exact hd k' l' hget e he

/-- Decomposition of a successful `build_step`. -/
theorem build_step_ok {fieldnames : List String}
    {acc : List (PyVal × List (PyVal × PyVal))} {row : List String}
    {acc' : List (PyVal × List (PyVal × PyVal))}
    (h : build_step fieldnames acc row = Except.ok acc') :
    ∃ t c y, dictRowGet fieldnames row "originalTitle" = Except.ok t ∧
      dictRowGet fieldnames row "tconst" = Except.ok c ∧
      dictRowGet fieldnames row "startYear" = Except.ok y ∧
      acc' = dAppend acc t (c, y) := by
  unfold build_step at h
  cases h1 : dictRowGet fieldnames row "originalTitle" with
  | error e => rw [h1] at h; exact Except.noConfusion h
  | ok t =>
    rw [h1] at h
    cases h2 : dictRowGet fieldnames row "tconst" with
    | error e => rw [h2] at h; exact Except.noConfusion h
    | ok c =>
      rw [h2] at h
      cases h3 : dictRowGet fieldnames row "startYear" with
      | error e => rw [h3] at h; exact Except.noConfusion h
      | ok y =>
        rw [h3] at h
        injection h with h4
        exact ⟨t, c, y, rfl, rfl, rfl, h4.symm⟩

/-- The build loop preserves the year invariant. -/
theorem build_loop_yearsOk (fieldnames : List String) :
    ∀ (rows : List (List String))
      (acc d : List (PyVal × List (PyVal × PyVal))),
      dictYearsOk acc →
      build_loop fieldnames acc rows = Except.ok d →
      dictYearsOk d := by
  intro rows
  induction rows with
  | nil =>
    intro acc d hacc h
    injection h with h2
    subst h2
    exact hacc
  | cons r rs ih =>
    intro acc d hacc h
    unfold build_loop at h
    cases hstep : build_step fieldnames acc r with
    | error e => rw [hstep] at h; exact Except.noConfusion h
    | ok acc' =>
      rw [hstep] at h
      obtain ⟨t, c, y, _, _, hy, hacc'⟩ := build_step_ok hstep
      subst hacc'
      exact ih _ d (dictYearsOk_dAppend hacc (dictRowGet_isStrOrNone hy)) h

/-- Every dictionary built by `build_title_finder` satisfies the year
invariant: each stored `startYear` is a string or `None`. -/
theorem build_title_finder_yearsOk {fieldnames : List String}
    {rows : List (List String)} {d : List (PyVal × List (PyVal × PyVal))}
    (h : build_title_finder fieldnames rows = Except.ok d) :
    dictYearsOk d := by
  refine build_loop_yearsOk fieldnames _ [] d ?_ h
  intro k l hget
  exact Option.noConfusion hget

/-- Filtering a candidate list whose years are all strings or `None`
against an integer year matches nothing: Python `str == int` and
`None == int` are both `False`. -/
theorem filter_int_year_empty {films : List (PyVal × PyVal)} {y : Int}
    (h : ∀ e ∈ films, isStrOrNone e.2 = true) :
    films.filter (fun f => pyEq f.2 (optIntToPy (some y))) = [] := by
  rw [List.filter_eq_nil_iff]
  intro a ha
  have hs := h a ha
  cases hy : a.2 with
  | none => simp [optIntToPy, pyEq, hy]
  | int n => rw [hy] at hs; exact Bool.noConfusion hs
  | str t => simp [optIntToPy, pyEq, hy]

/-- C2: on every dictionary produced by `build_title_finder` (years
stored as raw strings), a title with two or more entries resolves to
absent for every integer year argument: the single-match test after the
year filter re-checks the unfiltered list, and the string-to-int
comparison in the filter never matches. -/
theorem built_finder_ambiguous_always_absent (fieldnames : List String)
    (rows : List (List String)) (d : List (PyVal × List (PyVal × PyVal)))
    (title : String) (films : List (PyVal × PyVal)) (y : Int)
    (hb : build_title_finder fieldnames rows = Except.ok d)
    (hf : dictGet d (PyVal.str title) = some films)
    (h2 : 2 ≤ films.length) :
    (TitleFinder.mk (dictGet d)).find_id title (some y) = Except.ok PyVal.none := by
  have hok : dictYearsOk d := build_title_finder_yearsOk hb
  have hfil : films.filter (fun f => pyEq f.2 (optIntToPy (some y))) = [] :=
    filter_int_year_empty (fun e he => hok (PyVal.str title) films hf e he)
  have h0 : films.length ≠ 0 := by omega
  have h1 : films.length ≠ 1 := by omega
  by_cases hy : y = 0
  · subst hy
    simp [TitleFinder.find_id, hf, h0, h1, optIntFalsy]
  · simp [TitleFinder.find_id, hf, h0, h1, optIntFalsy, hy, hfil]

/-- Witness for `built_finder_ambiguous_always_absent`: building from
two rows sharing the title `Alice` and resolving with the matching year
2015 still yields absent. -/
theorem built_finder_ambiguous_always_absent_witness :
    build_title_finder ["tconst", "originalTitle", "startYear"]
        [["tt1", "Alice", "2001"], ["tt2", "Alice", "2015"]]
      = Except.ok [(PyVal.str "Alice",
          [(PyVal.str "tt1", PyVal.str "2001"),
           (PyVal.str "tt2", PyVal.str "2015")])] ∧
    (TitleFinder.mk (dictGet [(PyVal.str "Alice",
          [(PyVal.str "tt1", PyVal.str "2001"),
           (PyVal.str "tt2", PyVal.str "2015")])])).find_id "Alice" (some 2015)
      = Except.ok PyVal.none :=
  ⟨rfl, built_finder_ambiguous_always_absent
    ["tconst", "originalTitle", "startYear"]
    [["tt1", "Alice", "2001"], ["tt2", "Alice", "2015"]]
    [(PyVal.str "Alice",
      [(PyVal.str "tt1", PyVal.str "2001"),
       (PyVal.str "tt2", PyVal.str "2015")])]
    "Alice"
    [(PyVal.str "tt1", PyVal.str "2001"), (PyVal.str "tt2", PyVal.str "2015")]
    2015 rfl rfl (by norm_num)⟩

/-- C7 counterexample: a row missing the title and year columns is not
skipped.  `csv.DictReader` fills the missing fields with `None`, so the
load inserts `("tt2", None)` under the key `None`, and the resulting
index contains an entry for the malformed row. -/
theorem build_title_finder_keeps_malformed :
    build_title_finder ["tconst", "originalTitle", "startYear"]
        [["tt1", "Alice", "2001"], ["tt2"]]
      = Except.ok [(PyVal.str "Alice", [(PyVal.str "tt1", PyVal.str "2001")]),
                   (PyVal.none, [(PyVal.str "tt2", PyVal.none)])] ∧
    dictGet [(PyVal.str "Alice", [(PyVal.str "tt1", PyVal.str "2001")]),
             (PyVal.none, [(PyVal.str "tt2", PyVal.none)])] PyVal.none
      = some [(PyVal.str "tt2", PyVal.none)] :=
  ⟨rfl, rfl⟩

/-- A `DictReader` field access succeeds whenever the key is one of the
header's field names: a short row reads as the `None` restval. -/
theorem dictRowGet_ok_of_mem (fieldnames row : List String) (key : String)
    (h : key ∈ fieldnames) :
    ∃ v, dictRowGet fieldnames row key = Except.ok v := by
  cases hidx : fieldnames.indexOf? key with
  | none =>
    rw [List.indexOf?_eq_none_iff] at hidx
    exact absurd (by simp : (key == key) = true) (hidx key h)
  | some i =>
    cases hg : row[i]? with
    | none => exact ⟨PyVal.none, by simp [dictRowGet, hidx, hg]⟩
    | some s => exact ⟨PyVal.str s, by simp [dictRowGet, hidx, hg]⟩

/-- Entries present in the accumulator survive the rest of the build
loop (lists under a key only ever grow). -/
theorem build_loop_mono (fieldnames : List String) :
    ∀ (rows : List (List String)) (acc d : List (PyVal × List (PyVal × PyVal))),
      build_loop fieldnames acc rows = Except.ok d →
      ∀ k l e, dictGet acc k = some l → e ∈ l →
        ∃ l2, dictGet d k = some l2 ∧ e ∈ l2 := by
  intro rows
  induction rows with
  | nil =>
    intro acc d h k l e hget he
    injection h with h2
    subst h2
    exact ⟨l, hget, he⟩
  | cons r rs ih =>
    intro acc d h k l e hget he
    unfold build_loop at h
    cases hstep : build_step fieldnames acc r with
    | error e2 => rw [hstep] at h; exact Except.noConfusion h
    | ok acc' =>
      rw [hstep] at h
      obtain ⟨t, c, y, _, _, _, hacc'⟩ := build_step_ok hstep
      subst hacc'
      have hin : ∃ l1, dictGet (dAppend acc t (c, y)) k = some l1 ∧ e ∈ l1 := by
        rw [dictGet_dAppend]
        by_cases hk : t = k
        · refine ⟨(dictGet acc k).getD [] ++ [(c, y)], by rw [if_pos hk], ?_⟩
          simp only [hget, Option.getD_some]
          exact List.mem_append_left _ he
        · exact ⟨l, by rw [if_neg hk]; exact hget, he⟩
      obtain ⟨l1, hl1, he1⟩ := hin
      exact ih (dAppend acc t (c, y)) d h k l1 e hl1 he1

/-- When the header has all three columns the build loop never fails,
and every processed row's `(tconst, startYear)` pair ends up in the list
stored under the row's title key. -/
theorem build_loop_ok_and_mem (fieldnames : List String)
    (h1 : "tconst" ∈ fieldnames) (h2 : "originalTitle" ∈ fieldnames)
    (h3 : "startYear" ∈ fieldnames) :
    ∀ (rows : List (List String)) (acc : List (PyVal × List (PyVal × PyVal))),
      ∃ d, build_loop fieldnames acc rows = Except.ok d ∧
        ∀ row ∈ rows,
          ∀ t c y, dictRowGet fieldnames row "originalTitle" = Except.ok t →
            dictRowGet fieldnames row "tconst" = Except.ok c →
            dictRowGet fieldnames row "startYear" = Except.ok y →
            ∃ l, dictGet d t = some l ∧ (c, y) ∈ l := by
  intro rows
  induction rows with
  | nil => exact fun acc => ⟨acc, rfl, by simp⟩
  | cons r rs ih =>
    intro acc
    obtain ⟨t0, ht0⟩ := dictRowGet_ok_of_mem fieldnames r "originalTitle" h2
    obtain ⟨c0, hc0⟩ := dictRowGet_ok_of_mem fieldnames r "tconst" h1
    obtain ⟨y0, hy0⟩ := dictRowGet_ok_of_mem fieldnames r "startYear" h3
    have hstep : build_step fieldnames acc r
        = Except.ok (dAppend acc t0 (c0, y0)) := by
      unfold build_step
      rw [ht0, hc0, hy0]
    obtain ⟨d, hd, hmem⟩ := ih (dAppend acc t0 (c0, y0))
    refine ⟨d, ?_, ?_⟩
    · unfold build_loop
      rw [hstep]
      exact hd
    · intro row hrow t c y ht hc hy
      rcases List.mem_cons.1 hrow with hr | hr
      · subst hr
        rw [ht0] at ht
        injection ht with ht
        subst ht
        rw [hc0] at hc
        injection hc with hc
        subst hc
        rw [hy0] at hy
        injection hy with hy
        subst hy
        have hin : dictGet (dAppend acc t0 (c0, y0)) t0
            = some ((dictGet acc t0).getD [] ++ [(c0, y0)]) := by
          rw [dictGet_dAppend, if_pos rfl]
        exact build_loop_mono fieldnames rs (dAppend acc t0 (c0, y0)) d hd t0 _
          (c0, y0) hin (List.mem_append_right _ (List.mem_singleton.2 rfl))
      · exact hmem row hr t c y ht hc hy

/-- C7 amended: with a header containing the three needed columns, the
load completes without aborting on any input rows; malformed
rows are not skipped but inserted with `None` for their missing
fields, and in particular the index contains the entries of all
well-formed rows: each nonempty row's `(tconst, startYear)` pair
is stored under its title key. -/
theorem build_title_finder_tolerates_malformed (fieldnames : List String)
    (rows : List (List String))
    (h1 : "tconst" ∈ fieldnames) (h2 : "originalTitle" ∈ fieldnames)
    (h3 : "startYear" ∈ fieldnames) :
    ∃ d, build_title_finder fieldnames rows = Except.ok d ∧
      ∀ row ∈ rows, row ≠ [] →
        ∀ t c y, dictRowGet fieldnames row "originalTitle" = Except.ok t →
          dictRowGet fieldnames row "tconst" = Except.ok c →
          dictRowGet fieldnames row "startYear" = Except.ok y →
          ∃ l, dictGet d t = some l ∧ (c, y) ∈ l := by
  obtain ⟨d, hd, hmem⟩ := build_loop_ok_and_mem fieldnames h1 h2 h3
    (rows.filter (fun r => !r.isEmpty)) []
  refine ⟨d, hd, ?_⟩
  intro row hrow hne t c y ht hc hy
  refine hmem row (List.mem_filter.2 ⟨hrow, ?_⟩) t c y ht hc hy
  simp [List.isEmpty_iff, hne]

/-- Witness for `build_title_finder_tolerates_malformed`: the header of
the IMDb file with one well-formed and one malformed row. -/
theorem build_title_finder_tolerates_malformed_witness :
    ∃ d, build_title_finder ["tconst", "originalTitle", "startYear"]
        [["tt1", "Alice", "2001"], ["tt2"]] = Except.ok d ∧
      ∀ row ∈ [["tt1", "Alice", "2001"], ["tt2"]], row ≠ [] →
        ∀ t c y, dictRowGet ["tconst", "originalTitle", "startYear"] row
            "originalTitle" = Except.ok t →
          dictRowGet ["tconst", "originalTitle", "startYear"] row
            "tconst" = Except.ok c →
          dictRowGet ["tconst", "originalTitle", "startYear"] row
            "startYear" = Except.ok y →
          ∃ l, dictGet d t = some l ∧ (c, y) ∈ l :=
  build_title_finder_tolerates_malformed
    ["tconst", "originalTitle", "startYear"]
    [["tt1", "Alice", "2001"], ["tt2"]]
    (by simp) (by simp) (by simp)

/-- An unquoted field serializes as itself. -/
theorem csvField_eq_self {s : String} (h : needsQuoting s = false) :
    csvField s = s := by
  simp [csvField, h]

/-- Folding string concatenation equals prepending to the join. -/
theorem string_foldl_append (l : List String) :
    ∀ s : String, l.foldl (fun a b => a ++ b) s = s ++ String.join l := by
  induction l with
  | nil => intro s; simp [String.join, String.append_empty]
  | cons a l ih =>
    intro s
    rw [List.foldl_cons, ih (s ++ a)]
    have hj : String.join (a :: l) = a ++ String.join l := by
      show l.foldl _ ("" ++ a) = _
      rw [ih ("" ++ a), String.empty_append]
    rw [hj, String.append_assoc]

/-- The export loop appends the rows of the films, in order, to
whatever was already written. -/
theorem export_rows_eq (l : List Film) :
    ∀ s : String, l.foldl (fun acc film => acc ++ filmRow film) s
      = s ++ String.join (l.map filmRow) := by
  induction l with
  | nil => intro s; simp [String.join, String.append_empty]
  | cons a l ih =>
    intro s
    rw [List.foldl_cons, ih (s ++ filmRow a)]
    have hj : String.join (filmRow a :: l.map filmRow)
        = filmRow a ++ String.join (l.map filmRow) := by
      show (l.map filmRow).foldl _ ("" ++ filmRow a) = _
      rw [string_foldl_append, String.empty_append]
    rw [List.map_cons, hj, String.append_assoc]

/-- C9: `export_to_csv` writes exactly the fixed header line followed by
one data row per record in input order, and the row of a record with
absent `externalId` starts with an empty identifier field while the
title, year, watched date and rating fields are the record's values
unchanged (unchanged literally whenever no field needs CSV quoting). -/
theorem export_to_csv_spec (films_with_ids : List Film) :
    export_to_csv films_with_ids
      = "imdbID,Title,Year,WatchedDate,Rating10\r\n"
        ++ String.join (films_with_ids.map filmRow)
    ∧ ∀ film : Film, film.imdb_id = PyVal.none →
        needsQuoting film.title = false →
        needsQuoting (optIntFieldStr film.year) = false →
        needsQuoting film.date = false →
        needsQuoting (optIntFieldStr film.rating) = false →
        filmRow film = "," ++ film.title ++ "," ++ optIntFieldStr film.year
          ++ "," ++ film.date ++ "," ++ optIntFieldStr film.rating
          ++ "\r\n" := by
  constructor
  · rw [export_to_csv, export_rows_eq]
    congr 1
  · intro film h0 h1 h2 h3 h4
    have hempty : csvField (pyFieldStr PyVal.none) = "" := rfl
    apply String.ext
    simp only [filmRow, writerow, h0, hempty, csvField_eq_self h1,
      csvField_eq_self h2, csvField_eq_self h3, csvField_eq_self h4,
      String.data_append, List.append_assoc, List.nil_append]

/-- Witness for `export_to_csv_spec`: one unmatched film. -/
theorem export_to_csv_spec_witness :
    export_to_csv [sampleFilm]
      = "imdbID,Title,Year,WatchedDate,Rating10\r\n"
        ++ String.join ([sampleFilm].map filmRow)
    ∧ filmRow sampleFilm
      = "," ++ sampleFilm.title ++ "," ++ optIntFieldStr sampleFilm.year
        ++ "," ++ sampleFilm.date ++ "," ++ optIntFieldStr sampleFilm.rating
        ++ "\r\n" :=
  ⟨(export_to_csv_spec [sampleFilm]).1,
   (export_to_csv_spec [sampleFilm]).2 sampleFilm rfl (by decide) (by decide)
    (by decide) (by decide)⟩

/-- C10 counterexample: a row whose (nonempty) title cell and timestamp
cell parse but which has no year cell at all is rejected outright
instead of being included with an unknown year: `tds[2]` raises
`IndexError`, which the generic handler turns into a rejected row. -/
theorem parse_row_missing_year_cell_rejected :
    ("12:30:45 01.02.2003" : String) ≠ "" ∧
    strptime_hms_dmY "12:30:45 01.02.2003"
      = some ⟨2003, 2, 1, 12, 30, 45⟩ ∧
    (["x", "12:30:45 01.02.2003"] : List String)[1]?
      = some "12:30:45 01.02.2003" ∧
    (["x", "12:30:45 01.02.2003"] : List String).getLast?
      = some "12:30:45 01.02.2003" ∧
    (["x", "12:30:45 01.02.2003"] : List String)[2]? = Option.none ∧
    parse_kinopoisk_row ["x", "12:30:45 01.02.2003"] = Option.none :=
  ⟨by decide, rfl, rfl, rfl, rfl, rfl⟩

/-- C10 amended: a source row whose title cell is nonempty, whose year
cell is present but empty or non-numeric, whose rating cell exists and
whose last-cell timestamp parses, is parsed with `year = None`, is
included in the parser output, and the enricher then resolves it with no
year argument; a row lacking the year cell entirely is instead
rejected. -/
theorem parse_row_bad_year_included (tds : List String)
    (title ys rs ds : String) (d : PyDateTime) (tf : TitleFinder)
    (h1 : tds[1]? = some title) (hne : title ≠ "")
    (h2 : tds[2]? = some ys) (hy : pyInt ys = Option.none)
    (h7 : tds[7]? = some rs)
    (hl : tds.getLast? = some ds) (hd : strptime_hms_dmY ds = some d) :
    parse_kinopoisk_row tds
      = some { title := title, year := Option.none, rating := pyInt rs,
               date := strftime_Ymd d }
    ∧ (∀ rows : List (List String), tds ∈ rows →
        ({ title := title, year := Option.none, rating := pyInt rs,
           date := strftime_Ymd d : Film }) ∈ load_kinopoisk_rows rows)
    ∧ add_imdb_id tf { title := title, year := Option.none,
                       rating := pyInt rs, date := strftime_Ymd d }
      = (tf.find_id title Option.none).map
          (fun v => if pyTruthy v then
            { title := title, year := Option.none, rating := pyInt rs,
              date := strftime_Ymd d, imdb_id := v }
          else { title := title, year := Option.none, rating := pyInt rs,
                 date := strftime_Ymd d }) := by
  have hparse : parse_kinopoisk_row tds
      = some { title := title, year := Option.none, rating := pyInt rs,
               date := strftime_Ymd d } := by
    simp [parse_kinopoisk_row, h1, hne, h2, hy, h7, hl, hd]
  refine ⟨hparse, ?_, rfl⟩
  intro rows hrows
  simp only [load_kinopoisk_rows, List.mem_filterMap, List.mem_map, id]
  exact ⟨parse_kinopoisk_row tds, ⟨tds, hrows, rfl⟩, hparse⟩

/-- Witness for `parse_row_bad_year_included`: a row with the
non-numeric year cell `n/a`. -/
theorem parse_row_bad_year_included_witness :
    parse_kinopoisk_row
        ["", "Alice", "n/a", "", "", "", "", "8", "12:30:45 01.02.2003"]
      = some badYearFilm
    ∧ (∀ rows : List (List String),
        ["", "Alice", "n/a", "", "", "", "", "8", "12:30:45 01.02.2003"]
          ∈ rows → badYearFilm ∈ load_kinopoisk_rows rows)
    ∧ add_imdb_id aliceFinder badYearFilm
      = (aliceFinder.find_id "Alice" Option.none).map
          (fun v => if pyTruthy v then { badYearFilm with imdb_id := v }
                    else badYearFilm) :=
  parse_row_bad_year_included
    ["", "Alice", "n/a", "", "", "", "", "8", "12:30:45 01.02.2003"]
    "Alice" "n/a" "8" "12:30:45 01.02.2003" ⟨2003, 2, 1, 12, 30, 45⟩
    aliceFinder rfl (by decide) rfl (by decide) rfl rfl rfl
